import Mathlib

/-!
Verification development for the sshhades encryption core
(`internal/crypto/crypto.go`, `internal/crypto/kdf.go`, the ChaCha20
companion file, and `pkg/format/format.go`).

Modelling conventions:
* Go `[]byte` is `List Nat` (byte values; no arithmetic on the bytes is
  performed by the core, so the `< 256` bound is never needed).
* The external cryptographic library primitives (`argon2.IDKey`,
  AES-256-GCM seal/open, ChaCha20-Poly1305 seal/open) are not part of this
  repository; they are gathered in a `CryptoPrims` record that every
  embedded function takes as an explicit parameter.  Library facts the
  repository relies on (output lengths, AEAD round-trip, AEAD authenticity)
  appear as hypotheses of the theorems, and a computable toy instantiation
  `toyPrims` discharges them in the witnesses.
* Randomness (`crypto/rand.Read` filling salt and nonce buffers) is
  modelled by explicit random-stream arguments `Nat → Nat`; the buffer
  sizes `make([]byte, 32)` / `make([]byte, 12)` are kept from the source.
  The (fatal, unmodelled) failure of the OS random source is the only
  source path not represented.
* `defer ClearBytes(key)` runs on every return path after the key is
  derived; each embedded Encrypt/Decrypt therefore returns, next to its
  `Except` outcome, the final contents of the derived-key buffer, which is
  `ClearBytes key` on every branch, mirroring the deferred call.
* Go error values are modelled as `Except String`; `fmt.Errorf("...: %w")`
  wrapping keeps only the repository's own prefix text, the wrapped
  library error text being external.
-/

/-- `format.Version` from `pkg/format/format.go`: the encrypted file format
version constant. -/
def Version : String := "1.0"

/-- `format.AlgorithmAESGCM` from `pkg/format/format.go`. -/
def AlgorithmAESGCM : String := "AES-256-GCM"

/-- `format.AlgorithmChaCha20` from `pkg/format/format.go`. -/
def AlgorithmChaCha20 : String := "ChaCha20-Poly1305"

/-- Go `time.Time`, reduced to the data the artifact stores (an RFC3339
UTC instant).  Only equality of timestamps matters to the claims. -/
structure GoTime where
  nanos : Int
  deriving DecidableEq, Repr

/-- `format.Header` from `pkg/format/format.go`: metadata about the
encryption.  Field names follow the Go struct. -/
structure Header where
  version : String
  algorithm : String
  kdf : String
  iterations : Nat
  memory : Nat
  threads : Nat
  timestamp : GoTime
  comment : String
  deriving DecidableEq, Repr

/-- `format.EncryptedFile` from `pkg/format/format.go`: the persisted
artifact {header, salt, nonce, ciphertext, tag}. -/
structure EncryptedFile where
  header : Header
  salt : List Nat
  nonce : List Nat
  ciphertext : List Nat
  tag : List Nat
  deriving DecidableEq, Repr

/-- `crypto.KDFParams` from `internal/crypto/kdf.go`.  `Iterations`,
`Memory`, `KeyLength` are Go `uint32` and `Threads` is `uint8`; they are
carried as `Nat`, with the one overflowing operation
(`params.Memory*1024`) reduced `% 2^32` where it occurs. -/
structure KDFParams where
  iterations : Nat
  memory : Nat
  threads : Nat
  keyLength : Nat
  deriving DecidableEq, Repr

/-- `crypto.EncryptionResult` from `internal/crypto/crypto.go`. -/
structure EncryptionResult where
  salt : List Nat
  nonce : List Nat
  ciphertext : List Nat
  tag : List Nat
  deriving DecidableEq, Repr

/-- The external cryptographic primitives the core calls into:
`argon2.IDKey`, AES-256-GCM `Seal`/`Open` (via `crypto/aes` +
`cipher.NewGCM`), and ChaCha20-Poly1305 `Seal`/`Open`
(`golang.org/x/crypto/chacha20poly1305`).  `Seal` returns
ciphertext‖tag as one blob, exactly like the Go AEAD interface with a
nil destination and nil associated data; `Open` consumes such a blob and
returns `none` on authentication failure. -/
structure CryptoPrims where
  idKey : List Nat → List Nat → Nat → Nat → Nat → Nat → List Nat
  gcmSeal : List Nat → List Nat → List Nat → List Nat
  gcmOpen : List Nat → List Nat → List Nat → Option (List Nat)
  chachaSeal : List Nat → List Nat → List Nat → List Nat
  chachaOpen : List Nat → List Nat → List Nat → Option (List Nat)

/-- `crypto.DefaultKDFParams` from `internal/crypto/kdf.go`. -/
def DefaultKDFParams : KDFParams :=
  { iterations := 100000, memory := 64, threads := 4, keyLength := 32 }

/-- `crypto.FastKDFParams` from `internal/crypto/kdf.go`. -/
def FastKDFParams : KDFParams :=
  { iterations := 1000, memory := 8, threads := 1, keyLength := 32 }

/-- `crypto.DeriveKey` from `internal/crypto/kdf.go`: calls
`argon2.IDKey(passphrase, salt, params.Iterations, params.Memory*1024,
params.Threads, params.KeyLength)`.  The MB→KB conversion
`params.Memory*1024` is a `uint32` multiplication, hence `% 2^32`. -/
def DeriveKey (C : CryptoPrims) (passphrase salt : List Nat) (params : KDFParams) : List Nat :=
  C.idKey passphrase salt params.iterations (params.memory * 1024 % 2 ^ 32)
    params.threads params.keyLength

/-- `crypto.GenerateSalt` from `internal/crypto/kdf.go`: fills a fresh
32-byte buffer from the secure random source (modelled by the stream
`rand`). -/
def GenerateSalt (rand : Nat → Nat) : List Nat :=
  (List.range 32).map rand

/-- `crypto.GenerateNonce` from `internal/crypto/kdf.go`: fills a fresh
12-byte buffer from the secure random source. -/
def GenerateNonce (rand : Nat → Nat) : List Nat :=
  (List.range 12).map rand

/-- `crypto.ClearBytes` from `internal/crypto/kdf.go`: overwrites every
byte of the buffer with zero (modelled functionally: the returned list is
the buffer's content after the call). -/
def ClearBytes (data : List Nat) : List Nat :=
  data.map (fun _ => 0)

/-- `aes.NewCipher` (Go standard library) succeeds exactly when the key is
16, 24 or 32 bytes long; `cipher.NewGCM` then always succeeds for an AES
block.  This predicate captures the error path of the two `NewCipher` /
`NewGCM` calls in `EncryptAES`/`DecryptAES`. -/
def aesKeyLenOk (n : Nat) : Bool :=
  n = 16 || n = 24 || n = 32

/-- `chacha20poly1305.New` succeeds exactly when the key is 32 bytes. -/
def chachaKeyLenOk (n : Nat) : Bool :=
  n = 32

/-- `gcm.Overhead()` and the ChaCha20-Poly1305 overhead: 16-byte tag. -/
def tagSize : Nat := 16

/-- `crypto.EncryptAES` from `internal/crypto/crypto.go`.  Returns the
outcome together with the final content of the derived-key buffer (the
`defer ClearBytes(key)` registered right after `DeriveKey` runs on every
subsequent return path). -/
def EncryptAES (C : CryptoPrims) (randSalt randNonce : Nat → Nat)
    (data passphrase : List Nat) (params : KDFParams) :
    Except String EncryptionResult × List Nat :=
  let salt := GenerateSalt randSalt
  let key := DeriveKey C passphrase salt params
  if aesKeyLenOk key.length then
    let nonce := GenerateNonce randNonce
    let ciphertext := C.gcmSeal key nonce data
    if ciphertext.length < tagSize then
      (Except.error "ciphertext too short", ClearBytes key)
    else
      (Except.ok
        { salt := salt, nonce := nonce,
          ciphertext := ciphertext.take (ciphertext.length - tagSize),
          tag := ciphertext.drop (ciphertext.length - tagSize) },
       ClearBytes key)
  else
    (Except.error "failed to create AES cipher", ClearBytes key)

/-- `crypto.EncryptChaCha20` from the ChaCha20 companion file
(`src/unnamed/part_007`).  The nonce buffer is `make([]byte,
aead.NonceSize())` filled by `rand.Read`; `aead.NonceSize()` is 12. -/
def EncryptChaCha20 (C : CryptoPrims) (randSalt randNonce : Nat → Nat)
    (data passphrase : List Nat) (params : KDFParams) :
    Except String EncryptionResult × List Nat :=
  let salt := GenerateSalt randSalt
  let key := DeriveKey C passphrase salt params
  if chachaKeyLenOk key.length then
    let nonce := GenerateNonce randNonce
    let ciphertext := C.chachaSeal key nonce data
    if ciphertext.length < tagSize then
      (Except.error "ciphertext too short", ClearBytes key)
    else
      (Except.ok
        { salt := salt, nonce := nonce,
          ciphertext := ciphertext.take (ciphertext.length - tagSize),
          tag := ciphertext.drop (ciphertext.length - tagSize) },
       ClearBytes key)
  else
    (Except.error "failed to create ChaCha20-Poly1305 cipher", ClearBytes key)

/-- `crypto.Encrypt` from `internal/crypto/crypto.go`: dispatch on the
algorithm string.  In the default branch no key is ever derived, so the
key-buffer component is the empty buffer. -/
def Encrypt (C : CryptoPrims) (randSalt randNonce : Nat → Nat)
    (data passphrase : List Nat) (algorithm : String) (params : KDFParams) :
    Except String EncryptionResult × List Nat :=
  if algorithm = AlgorithmAESGCM then
    EncryptAES C randSalt randNonce data passphrase params
  else if algorithm = AlgorithmChaCha20 then
    EncryptChaCha20 C randSalt randNonce data passphrase params
  else
    (Except.error ("unsupported algorithm: " ++ algorithm), [])

/-- `crypto.DecryptAES` from `internal/crypto/crypto.go`. -/
def DecryptAES (C : CryptoPrims) (encFile : EncryptedFile)
    (passphrase : List Nat) (params : KDFParams) :
    Except String (List Nat) × List Nat :=
  let key := DeriveKey C passphrase encFile.salt params
  if aesKeyLenOk key.length then
    let fullCiphertext := encFile.ciphertext ++ encFile.tag
    match C.gcmOpen key encFile.nonce fullCiphertext with
    | some plaintext => (Except.ok plaintext, ClearBytes key)
    | none => (Except.error "decryption failed (wrong passphrase?)", ClearBytes key)
  else
    (Except.error "failed to create AES cipher", ClearBytes key)

/-- `crypto.DecryptChaCha20` from the ChaCha20 companion file
(`src/unnamed/part_007`). -/
def DecryptChaCha20 (C : CryptoPrims) (salt nonce ciphertext tag : List Nat)
    (passphrase : List Nat) (params : KDFParams) :
    Except String (List Nat) × List Nat :=
  let key := DeriveKey C passphrase salt params
  if chachaKeyLenOk key.length then
    let fullCiphertext := ciphertext ++ tag
    match C.chachaOpen key nonce fullCiphertext with
    | some plaintext => (Except.ok plaintext, ClearBytes key)
    | none => (Except.error "decryption failed (wrong passphrase?)", ClearBytes key)
  else
    (Except.error "failed to create ChaCha20-Poly1305 cipher", ClearBytes key)

/-- The KDF parameters `crypto.Decrypt` extracts from the artifact header
(`KeyLength` fixed at 32: both AES-256 and ChaCha20 use 32-byte keys). -/
def decryptParams (encFile : EncryptedFile) : KDFParams :=
  { iterations := encFile.header.iterations,
    memory := encFile.header.memory,
    threads := encFile.header.threads,
    keyLength := 32 }

/-- `crypto.Decrypt` from `internal/crypto/crypto.go`: builds the KDF
parameters from the header and dispatches on the header's algorithm
string. -/
def Decrypt (C : CryptoPrims) (encFile : EncryptedFile) (passphrase : List Nat) :
    Except String (List Nat) × List Nat :=
  let params := decryptParams encFile
  if encFile.header.algorithm = AlgorithmAESGCM then
    DecryptAES C encFile passphrase params
  else if encFile.header.algorithm = AlgorithmChaCha20 then
    DecryptChaCha20 C encFile.salt encFile.nonce encFile.ciphertext encFile.tag
      passphrase params
  else
    (Except.error ("unsupported algorithm: " ++ encFile.header.algorithm), [])

/-- `crypto.ValidateEncryptedFile` from `internal/crypto/crypto.go`:
the ordered sequence of structural checks, first failure reported. -/
def ValidateEncryptedFile (encFile : EncryptedFile) : Except String Unit :=
  if encFile.header.version ≠ Version then
    Except.error ("unsupported file version: " ++ encFile.header.version)
  else if ¬(encFile.header.algorithm = AlgorithmAESGCM ∨
            encFile.header.algorithm = AlgorithmChaCha20) then
    Except.error ("unsupported algorithm: " ++ encFile.header.algorithm)
  else if encFile.header.kdf ≠ "Argon2id" then
    Except.error ("unsupported KDF: " ++ encFile.header.kdf)
  else if encFile.salt.length ≠ 32 then
    Except.error ("invalid salt length: expected 32, got " ++ toString encFile.salt.length)
  else if encFile.nonce.length ≠ 12 then
    Except.error ("invalid nonce length: expected 12, got " ++ toString encFile.nonce.length)
  else if encFile.tag.length ≠ 16 then
    Except.error ("invalid tag length: expected 16, got " ++ toString encFile.tag.length)
  else if encFile.ciphertext.length = 0 then
    Except.error "empty ciphertext"
  else
    Except.ok ()

/-! ### Spec-side ordered validator (for the refinement part of the
validation claim) and artifact assembly as the callers perform it. -/

/-- Modelled from the spec (§4.3): the ordered list of structural checks,
each paired with the reason reported when it fails. -/
def validationChecks (encFile : EncryptedFile) : List (Bool × String) :=
  [ (encFile.header.version == Version,
     "unsupported file version: " ++ encFile.header.version),
    (encFile.header.algorithm == AlgorithmAESGCM ||
       encFile.header.algorithm == AlgorithmChaCha20,
     "unsupported algorithm: " ++ encFile.header.algorithm),
    (encFile.header.kdf == "Argon2id",
     "unsupported KDF: " ++ encFile.header.kdf),
    (encFile.salt.length == 32,
     "invalid salt length: expected 32, got " ++ toString encFile.salt.length),
    (encFile.nonce.length == 12,
     "invalid nonce length: expected 12, got " ++ toString encFile.nonce.length),
    (encFile.tag.length == 16,
     "invalid tag length: expected 16, got " ++ toString encFile.tag.length),
    (encFile.ciphertext.length != 0, "empty ciphertext") ]

/-- Modelled from the spec (§4.3): run checks in order, the first failing
check determines the reported reason; all must pass. -/
def firstFailing : List (Bool × String) → Except String Unit
  | [] => Except.ok ()
  | c :: rest => if c.1 then firstFailing rest else Except.error c.2

/-- Modelled from the spec (§4.3): the validator as the spec words it. -/
def ValidateSpecOrdered (encFile : EncryptedFile) : Except String Unit :=
  firstFailing (validationChecks encFile)

/-- How the callers (and the end-to-end test) place an `EncryptionResult`
into an artifact: the header fields describing the encryption are set and
the four cryptographic fields are copied verbatim. -/
def mkEncryptedFile (hdr : Header) (r : EncryptionResult) : EncryptedFile :=
  { header := hdr, salt := r.salt, nonce := r.nonce,
    ciphertext := r.ciphertext, tag := r.tag }

/-! ### A computable toy instantiation of the external primitives,
used only to witness the library-fact hypotheses at concrete inputs. -/

/-- Toy stand-in for `argon2.IDKey`: deterministic, produces `keyLength`
bytes that depend on passphrase, salt and the cost parameters. -/
def toyIdKey (passphrase salt : List Nat) (iterations memoryKB threads keyLength : Nat) :
    List Nat :=
  (List.range keyLength).map
    (fun i => (7 * passphrase.sum + 11 * salt.sum + iterations + memoryKB + threads + i) % 256)

/-- Toy authentication tag: 16 bytes depending on key, nonce and message. -/
def toyTag (key nonce msg : List Nat) : List Nat :=
  (List.range 16).map (fun i => (2 * key.sum + 3 * nonce.sum + 5 * msg.sum + i) % 256)

/-- Toy AEAD seal: message followed by its 16-byte tag (the Go AEAD
`Seal(nil, nonce, msg, nil)` shape: ciphertext‖tag). -/
def toySeal (key nonce msg : List Nat) : List Nat :=
  msg ++ toyTag key nonce msg

/-- Toy AEAD open: split off the 16-byte tag, recompute, compare. -/
def toyOpen (key nonce blob : List Nat) : Option (List Nat) :=
  if blob.length < 16 then none
  else
    let msg := blob.take (blob.length - 16)
    if blob.drop (blob.length - 16) = toyTag key nonce msg then some msg else none

/-- The toy primitive bundle. -/
def toyPrims : CryptoPrims :=
  { idKey := toyIdKey, gcmSeal := toySeal, gcmOpen := toyOpen,
    chachaSeal := toySeal, chachaOpen := toyOpen }

/-! ### Claims -/

/-- C2: `ValidateEncryptedFile` succeeds exactly when version is "1.0",
the algorithm is one of the two supported tokens, the KDF is "Argon2id",
the salt is 32 bytes, the nonce 12 bytes, the tag 16 bytes, and the
ciphertext non-empty; moreover it equals the spec's ordered first-failing
check sequence, so the first failing check determines the reason. -/
theorem validate_iff_checks_and_ordered (encFile : EncryptedFile) :
    ValidateEncryptedFile encFile = ValidateSpecOrdered encFile ∧
    (ValidateEncryptedFile encFile = Except.ok () ↔
      (encFile.header.version = Version ∧
       (encFile.header.algorithm = AlgorithmAESGCM ∨
        encFile.header.algorithm = AlgorithmChaCha20) ∧
       encFile.header.kdf = "Argon2id" ∧
       encFile.salt.length = 32 ∧
       encFile.nonce.length = 12 ∧
       encFile.tag.length = 16 ∧
       encFile.ciphertext ≠ [])) := by
  by_cases h1 : encFile.header.version = Version <;>
  by_cases h2 : encFile.header.algorithm = AlgorithmAESGCM ∨
      encFile.header.algorithm = AlgorithmChaCha20 <;>
  by_cases h3 : encFile.header.kdf = "Argon2id" <;>
  by_cases h4 : encFile.salt.length = 32 <;>
  by_cases h5 : encFile.nonce.length = 12 <;>
  by_cases h6 : encFile.tag.length = 16 <;>
  by_cases h7 : encFile.ciphertext = [] <;>
  simp_all [ValidateEncryptedFile, ValidateSpecOrdered, validationChecks,
    firstFailing, List.length_eq_zero]

/-- C2 witness: a concrete artifact on which the theorem's (trivially
empty) hypotheses hold and both conclusions evaluate. -/
theorem validate_iff_checks_and_ordered_witness :
    ValidateEncryptedFile
        { header := { version := "1.0", algorithm := "AES-256-GCM",
                      kdf := "Argon2id", iterations := 1000, memory := 8,
                      threads := 1, timestamp := ⟨0⟩, comment := "" },
          salt := List.replicate 32 0, nonce := List.replicate 12 0,
          ciphertext := [1, 2, 3], tag := List.replicate 16 0 } =
      Except.ok () :=
  (validate_iff_checks_and_ordered _).2.mpr (by decide)

/-- C9: `DeriveKey` is deterministic — two calls on identical inputs give
identical keys — and, given the argon2 output-length contract (the library
returns exactly `keyLen` bytes), the derived key has length
`params.keyLength`. -/
theorem deriveKey_deterministic_and_length (C : CryptoPrims) (Q S : List Nat)
    (params : KDFParams)
    (hlen : ∀ p s i m t kl, (C.idKey p s i m t kl).length = kl) :
    DeriveKey C Q S params = DeriveKey C Q S params ∧
    (DeriveKey C Q S params).length = params.keyLength :=
  ⟨rfl, hlen Q S params.iterations (params.memory * 1024 % 2 ^ 32)
      params.threads params.keyLength⟩

/-- C9 witness: the toy primitives satisfy the length contract; the
theorem applies at a concrete passphrase, salt and parameter set. -/
theorem deriveKey_deterministic_and_length_witness :
    DeriveKey toyPrims [1, 2] [3, 4] FastKDFParams =
        DeriveKey toyPrims [1, 2] [3, 4] FastKDFParams ∧
    (DeriveKey toyPrims [1, 2] [3, 4] FastKDFParams).length =
        FastKDFParams.keyLength :=
  deriveKey_deterministic_and_length toyPrims [1, 2] [3, 4] FastKDFParams
    (fun p s i m t kl => by simp [toyPrims, toyIdKey])

/-- C6: validation places no constraint on the cost parameters — an
artifact passing all structural checks validates even with zero
iterations or zero threads — and `Decrypt` hands exactly the header's
iteration/memory/thread values (with key length 32) to `DeriveKey`,
which passes them unchanged to the derivation primitive with no error
path of its own. -/
theorem validate_unconstrained_cost_params (C : CryptoPrims) (encFile : EncryptedFile)
    (hver : encFile.header.version = Version)
    (halg : encFile.header.algorithm = AlgorithmAESGCM ∨
      encFile.header.algorithm = AlgorithmChaCha20)
    (hkdf : encFile.header.kdf = "Argon2id")
    (hsalt : encFile.salt.length = 32)
    (hnonce : encFile.nonce.length = 12)
    (htag : encFile.tag.length = 16)
    (hct : encFile.ciphertext ≠ [])
    (hzero : encFile.header.iterations = 0 ∨ encFile.header.threads = 0) :
    ValidateEncryptedFile encFile = Except.ok () ∧
    decryptParams encFile =
      { iterations := encFile.header.iterations, memory := encFile.header.memory,
        threads := encFile.header.threads, keyLength := 32 } ∧
    ((decryptParams encFile).iterations = 0 ∨ (decryptParams encFile).threads = 0) ∧
    (∀ Q, DeriveKey C Q encFile.salt (decryptParams encFile) =
      C.idKey Q encFile.salt encFile.header.iterations
        (encFile.header.memory * 1024 % 2 ^ 32) encFile.header.threads 32) := by
  refine ⟨?_, rfl, hzero, fun Q => rfl⟩
  rcases halg with h | h <;>
  simp [ValidateEncryptedFile, hver, h, hkdf, hsalt, hnonce, htag,
    List.length_eq_zero, hct]

/-- C6 witness: a structurally valid artifact with zero iterations and
zero threads. -/
theorem validate_unconstrained_cost_params_witness :
    ValidateEncryptedFile
        { header := { version := "1.0", algorithm := "ChaCha20-Poly1305",
                      kdf := "Argon2id", iterations := 0, memory := 64,
                      threads := 0, timestamp := ⟨0⟩, comment := "c" },
          salt := List.replicate 32 7, nonce := List.replicate 12 7,
          ciphertext := [9], tag := List.replicate 16 7 } =
      Except.ok () :=
  (validate_unconstrained_cost_params toyPrims _ (by decide) (by decide)
    (by decide) (by decide) (by decide) (by decide) (by decide) (by decide)).1

/-- C4: an unrecognized algorithm token makes `Encrypt` fail with the
"unsupported algorithm" error — its result is the displayed constant,
independent of data, passphrase and parameters, and no key is ever
derived — and `Decrypt` of an artifact carrying that token fails the same
way; the header token alone selects which construction `Decrypt` uses. -/
theorem unsupported_algorithm_fails_closed (C : CryptoPrims)
    (randSalt randNonce : Nat → Nat) (data passphrase : List Nat)
    (alg : String) (params : KDFParams) (encFile : EncryptedFile)
    (passphrase2 : List Nat)
    (hA : alg ≠ AlgorithmAESGCM) (hB : alg ≠ AlgorithmChaCha20)
    (hfile : encFile.header.algorithm = alg) :
    Encrypt C randSalt randNonce data passphrase alg params =
      (Except.error ("unsupported algorithm: " ++ alg), []) ∧
    Decrypt C encFile passphrase2 =
      (Except.error ("unsupported algorithm: " ++ alg), []) ∧
    (∀ ef : EncryptedFile, ∀ p : List Nat,
      (ef.header.algorithm = AlgorithmAESGCM →
        Decrypt C ef p = DecryptAES C ef p (decryptParams ef)) ∧
      (ef.header.algorithm = AlgorithmChaCha20 →
        Decrypt C ef p =
          DecryptChaCha20 C ef.salt ef.nonce ef.ciphertext ef.tag p
            (decryptParams ef))) := by
  refine ⟨by simp [Encrypt, hA, hB], by simp [Decrypt, hfile, hA, hB], ?_⟩
  intro ef p
  constructor
  · intro h
    simp [Decrypt, h]
  · intro h
    rw [Decrypt]
    rw [if_neg (by rw [h]; decide), if_pos h]

/-- C4 witness: the token "AES-128-CBC" is rejected by both directions. -/
theorem unsupported_algorithm_fails_closed_witness :
    Encrypt toyPrims (fun _ => 0) (fun _ => 0) [1] [2] "AES-128-CBC"
        FastKDFParams =
      (Except.error "unsupported algorithm: AES-128-CBC", []) ∧
    Decrypt toyPrims
        { header := { version := "1.0", algorithm := "AES-128-CBC",
                      kdf := "Argon2id", iterations := 1, memory := 8,
                      threads := 1, timestamp := ⟨0⟩, comment := "" },
          salt := [], nonce := [], ciphertext := [1], tag := [] } [2] =
      (Except.error "unsupported algorithm: AES-128-CBC", []) := by
  have h := unsupported_algorithm_fails_closed toyPrims (fun _ => 0) (fun _ => 0)
    [1] [2] "AES-128-CBC" FastKDFParams
    { header := { version := "1.0", algorithm := "AES-128-CBC",
                  kdf := "Argon2id", iterations := 1, memory := 8,
                  threads := 1, timestamp := ⟨0⟩, comment := "" },
      salt := [], nonce := [], ciphertext := [1], tag := [] } [2]
    (by decide) (by decide) rfl
  exact ⟨h.1, h.2.1⟩

/-- On every branch, the key buffer left behind by `Encrypt` is either the
cleared derived key or (when no key was ever derived) the empty buffer. -/
lemma encrypt_keybuf (C : CryptoPrims) (randSalt randNonce : Nat → Nat)
    (data passphrase : List Nat) (alg : String) (params : KDFParams) :
    (Encrypt C randSalt randNonce data passphrase alg params).2 = [] ∨
    (Encrypt C randSalt randNonce data passphrase alg params).2 =
      ClearBytes (DeriveKey C passphrase (GenerateSalt randSalt) params) := by
  unfold Encrypt EncryptAES EncryptChaCha20
  dsimp only
  repeat' split
  all_goals first | (left ; rfl) | (right ; rfl)

/-- On every branch, the key buffer left behind by `Decrypt` is either the
cleared derived key or (when no key was ever derived) the empty buffer. -/
lemma decrypt_keybuf (C : CryptoPrims) (encFile : EncryptedFile)
    (passphrase : List Nat) :
    (Decrypt C encFile passphrase).2 = [] ∨
    (Decrypt C encFile passphrase).2 =
      ClearBytes (DeriveKey C passphrase encFile.salt (decryptParams encFile)) := by
  unfold Decrypt DecryptAES DecryptChaCha20
  dsimp only
  repeat' split
  all_goals first | (left ; rfl) | (right ; rfl)

/-- C8: `ClearBytes` zeroes every byte of its buffer, and on every exit
path of `Encrypt` and `Decrypt` (all branches, success and failure) the
derived-key buffer has been cleared by the deferred `ClearBytes` call, so
after the call it contains only zero bytes. -/
theorem derived_key_buffer_zeroized (buf : List Nat) (C : CryptoPrims)
    (randSalt randNonce : Nat → Nat) (data passphrase : List Nat)
    (alg : String) (params : KDFParams) (encFile : EncryptedFile)
    (passphrase2 : List Nat) :
    (ClearBytes buf).length = buf.length ∧
    (∀ b ∈ ClearBytes buf, b = 0) ∧
    (∀ b ∈ (Encrypt C randSalt randNonce data passphrase alg params).2, b = 0) ∧
    (∀ b ∈ (Decrypt C encFile passphrase2).2, b = 0) := by
  refine ⟨by simp [ClearBytes], by simp [ClearBytes], ?_, ?_⟩
  · rcases encrypt_keybuf C randSalt randNonce data passphrase alg params with h | h <;>
      rw [h] <;> simp [ClearBytes]
  · rcases decrypt_keybuf C encFile passphrase2 with h | h <;>
      rw [h] <;> simp [ClearBytes]

/-- C7: whenever `Encrypt` succeeds (under either algorithm, given the
AEAD seal-length contract: the sealed blob is plaintext length plus the
16-byte overhead), the result carries a 32-byte salt, a 12-byte nonce, a
16-byte tag, and a ciphertext exactly as long as the plaintext. -/
theorem encrypt_result_field_lengths (C : CryptoPrims)
    (randSalt randNonce : Nat → Nat) (P Q : List Nat) (alg : String)
    (params : KDFParams) (r : EncryptionResult)
    (hsealA : alg = AlgorithmAESGCM →
      (C.gcmSeal (DeriveKey C Q (GenerateSalt randSalt) params)
          (GenerateNonce randNonce) P).length = P.length + 16)
    (hsealC : alg = AlgorithmChaCha20 →
      (C.chachaSeal (DeriveKey C Q (GenerateSalt randSalt) params)
          (GenerateNonce randNonce) P).length = P.length + 16)
    (hok : (Encrypt C randSalt randNonce P Q alg params).1 = Except.ok r) :
    r.salt.length = 32 ∧ r.nonce.length = 12 ∧ r.tag.length = 16 ∧
      r.ciphertext.length = P.length := by
  unfold Encrypt at hok
  by_cases hA : alg = AlgorithmAESGCM
  · rw [if_pos hA] at hok
    have hs := hsealA hA
    unfold EncryptAES at hok
    dsimp only at hok
    split at hok
    · split at hok
      · exact absurd hok (by simp)
      · injection hok with h
        subst h
        refine ⟨by simp [GenerateSalt], by simp [GenerateNonce], ?_, ?_⟩
        · simp only [List.length_drop, hs, tagSize]
          omega
        · simp only [List.length_take, hs, tagSize]
          omega
    · exact absurd hok (by simp)
  · rw [if_neg hA] at hok
    by_cases hB : alg = AlgorithmChaCha20
    · rw [if_pos hB] at hok
      have hs := hsealC hB
      unfold EncryptChaCha20 at hok
      dsimp only at hok
      split at hok
      · split at hok
        · exact absurd hok (by simp)
        · injection hok with h
          subst h
          refine ⟨by simp [GenerateSalt], by simp [GenerateNonce], ?_, ?_⟩
          · simp only [List.length_drop, hs, tagSize]
            omega
          · simp only [List.length_take, hs, tagSize]
            omega
      · exact absurd hok (by simp)
    · rw [if_neg hB] at hok
      exact absurd hok (by simp)

/-- C7 witness: with the toy primitives (whose seal really appends a
16-byte tag) a concrete encryption yields the claimed field lengths. -/
theorem encrypt_result_field_lengths_witness :
    (Encrypt toyPrims (fun i => i) (fun i => i + 1) [5, 6, 7] [9]
        "AES-256-GCM" FastKDFParams).1 =
      Except.ok
        { salt := GenerateSalt (fun i => i),
          nonce := GenerateNonce (fun i => i + 1),
          ciphertext := [5, 6, 7],
          tag := toyTag
            (DeriveKey toyPrims [9] (GenerateSalt (fun i => i)) FastKDFParams)
            (GenerateNonce (fun i => i + 1)) [5, 6, 7] } ∧
    (GenerateSalt (fun i => i)).length = 32 ∧
    (GenerateNonce (fun i => i + 1)).length = 12 ∧
    (toyTag (DeriveKey toyPrims [9] (GenerateSalt (fun i => i)) FastKDFParams)
        (GenerateNonce (fun i => i + 1)) [5, 6, 7]).length = 16 ∧
    ([5, 6, 7] : List Nat).length = 3 := by
  have hok : (Encrypt toyPrims (fun i => i) (fun i => i + 1) [5, 6, 7] [9]
      "AES-256-GCM" FastKDFParams).1 =
      Except.ok
        { salt := GenerateSalt (fun i => i),
          nonce := GenerateNonce (fun i => i + 1),
          ciphertext := [5, 6, 7],
          tag := toyTag
            (DeriveKey toyPrims [9] (GenerateSalt (fun i => i)) FastKDFParams)
            (GenerateNonce (fun i => i + 1)) [5, 6, 7] } := by rfl
  have h := encrypt_result_field_lengths toyPrims (fun i => i) (fun i => i + 1)
    [5, 6, 7] [9] "AES-256-GCM" FastKDFParams _
    (fun _ => by decide) (fun hc => absurd hc (by decide)) hok
  exact ⟨hok, h.1, h.2.1, h.2.2.1, h.2.2.2⟩

/-- Normal form of a successful `EncryptAES`: when the derived key is 32
bytes and the AEAD seals to plaintext length plus 16, the result splits
the sealed blob after `data.length` bytes. -/
lemma encryptAES_eq_ok (C : CryptoPrims) (randSalt randNonce : Nat → Nat)
    (data passphrase : List Nat) (params : KDFParams)
    (hk : (DeriveKey C passphrase (GenerateSalt randSalt) params).length = 32)
    (hs : (C.gcmSeal (DeriveKey C passphrase (GenerateSalt randSalt) params)
        (GenerateNonce randNonce) data).length = data.length + 16) :
    EncryptAES C randSalt randNonce data passphrase params =
      (Except.ok
        { salt := GenerateSalt randSalt, nonce := GenerateNonce randNonce,
          ciphertext := (C.gcmSeal
              (DeriveKey C passphrase (GenerateSalt randSalt) params)
              (GenerateNonce randNonce) data).take data.length,
          tag := (C.gcmSeal
              (DeriveKey C passphrase (GenerateSalt randSalt) params)
              (GenerateNonce randNonce) data).drop data.length },
       ClearBytes (DeriveKey C passphrase (GenerateSalt randSalt) params)) := by
  unfold EncryptAES
  dsimp only
  have hcond : aesKeyLenOk
      (DeriveKey C passphrase (GenerateSalt randSalt) params).length = true := by
    rw [hk]; rfl
  rw [hcond, if_pos rfl, hs]
  rw [if_neg (by simp only [tagSize]; omega)]
  simp only [tagSize, Nat.add_sub_cancel]

/-- Normal form of a successful `EncryptChaCha20`, as for AES. -/
lemma encryptChaCha20_eq_ok (C : CryptoPrims) (randSalt randNonce : Nat → Nat)
    (data passphrase : List Nat) (params : KDFParams)
    (hk : (DeriveKey C passphrase (GenerateSalt randSalt) params).length = 32)
    (hs : (C.chachaSeal (DeriveKey C passphrase (GenerateSalt randSalt) params)
        (GenerateNonce randNonce) data).length = data.length + 16) :
    EncryptChaCha20 C randSalt randNonce data passphrase params =
      (Except.ok
        { salt := GenerateSalt randSalt, nonce := GenerateNonce randNonce,
          ciphertext := (C.chachaSeal
              (DeriveKey C passphrase (GenerateSalt randSalt) params)
              (GenerateNonce randNonce) data).take data.length,
          tag := (C.chachaSeal
              (DeriveKey C passphrase (GenerateSalt randSalt) params)
              (GenerateNonce randNonce) data).drop data.length },
       ClearBytes (DeriveKey C passphrase (GenerateSalt randSalt) params)) := by
  unfold EncryptChaCha20
  dsimp only
  have hcond : chachaKeyLenOk
      (DeriveKey C passphrase (GenerateSalt randSalt) params).length = true := by
    rw [hk]; rfl
  rw [hcond, if_pos rfl, hs]
  rw [if_neg (by simp only [tagSize]; omega)]
  simp only [tagSize, Nat.add_sub_cancel]

/-- A successful `DecryptAES`: if the derived key is 32 bytes and the AEAD
open of the reconstructed blob succeeds, the plaintext is returned. -/
lemma decryptAES_opens (C : CryptoPrims) (encFile : EncryptedFile)
    (passphrase : List Nat) (params : KDFParams) (P : List Nat)
    (hk : (DeriveKey C passphrase encFile.salt params).length = 32)
    (hopen : C.gcmOpen (DeriveKey C passphrase encFile.salt params)
      encFile.nonce (encFile.ciphertext ++ encFile.tag) = some P) :
    (DecryptAES C encFile passphrase params).1 = Except.ok P := by
  unfold DecryptAES
  dsimp only
  have hcond : aesKeyLenOk
      (DeriveKey C passphrase encFile.salt params).length = true := by
    rw [hk]; rfl
  rw [hcond, if_pos rfl, hopen]

/-- A successful `DecryptChaCha20`, as for AES. -/
lemma decryptChaCha20_opens (C : CryptoPrims) (salt nonce ciphertext tag : List Nat)
    (passphrase : List Nat) (params : KDFParams) (P : List Nat)
    (hk : (DeriveKey C passphrase salt params).length = 32)
    (hopen : C.chachaOpen (DeriveKey C passphrase salt params)
      nonce (ciphertext ++ tag) = some P) :
    (DecryptChaCha20 C salt nonce ciphertext tag passphrase params).1 =
      Except.ok P := by
  unfold DecryptChaCha20
  dsimp only
  have hcond : chachaKeyLenOk
      (DeriveKey C passphrase salt params).length = true := by
    rw [hk]; rfl
  rw [hcond, if_pos rfl, hopen]

/-- C1: round-trip.  For any plaintext `P`, passphrase `Q`, supported
algorithm and cost parameters (key length 32, the data model's invariant),
given the AEAD library contracts (the derived key is 32 bytes, sealing
adds exactly the 16-byte tag, and opening a sealed blob under the same
key and nonce returns the plaintext), `Encrypt` succeeds, and `Decrypt`
of an artifact carrying its result fields under a header recording the
algorithm and cost parameters returns exactly `P`. -/
theorem encrypt_decrypt_roundtrip (C : CryptoPrims) (randSalt randNonce : Nat → Nat)
    (P Q : List Nat) (alg : String) (params : KDFParams) (hdr : Header)
    (halg : alg = AlgorithmAESGCM ∨ alg = AlgorithmChaCha20)
    (hKL : params.keyLength = 32)
    (halgh : hdr.algorithm = alg)
    (hith : hdr.iterations = params.iterations)
    (hmemh : hdr.memory = params.memory)
    (hthrh : hdr.threads = params.threads)
    (hk : (DeriveKey C Q (GenerateSalt randSalt) params).length = 32)
    (hsealA : alg = AlgorithmAESGCM →
      (C.gcmSeal (DeriveKey C Q (GenerateSalt randSalt) params)
        (GenerateNonce randNonce) P).length = P.length + 16)
    (hopenA : alg = AlgorithmAESGCM →
      C.gcmOpen (DeriveKey C Q (GenerateSalt randSalt) params)
        (GenerateNonce randNonce)
        (C.gcmSeal (DeriveKey C Q (GenerateSalt randSalt) params)
          (GenerateNonce randNonce) P) = some P)
    (hsealC : alg = AlgorithmChaCha20 →
      (C.chachaSeal (DeriveKey C Q (GenerateSalt randSalt) params)
        (GenerateNonce randNonce) P).length = P.length + 16)
    (hopenC : alg = AlgorithmChaCha20 →
      C.chachaOpen (DeriveKey C Q (GenerateSalt randSalt) params)
        (GenerateNonce randNonce)
        (C.chachaSeal (DeriveKey C Q (GenerateSalt randSalt) params)
          (GenerateNonce randNonce) P) = some P) :
    ∃ r, (Encrypt C randSalt randNonce P Q alg params).1 = Except.ok r ∧
      (Decrypt C (mkEncryptedFile hdr r) Q).1 = Except.ok P := by
  rcases halg with hA | hB
  · subst hA
    refine ⟨{ salt := GenerateSalt randSalt, nonce := GenerateNonce randNonce,
              ciphertext := (C.gcmSeal
                  (DeriveKey C Q (GenerateSalt randSalt) params)
                  (GenerateNonce randNonce) P).take P.length,
              tag := (C.gcmSeal
                  (DeriveKey C Q (GenerateSalt randSalt) params)
                  (GenerateNonce randNonce) P).drop P.length }, ?_, ?_⟩
    · unfold Encrypt
      rw [if_pos rfl, encryptAES_eq_ok C randSalt randNonce P Q params hk (hsealA rfl)]
    · have hparams : decryptParams
          (mkEncryptedFile hdr
            { salt := GenerateSalt randSalt, nonce := GenerateNonce randNonce,
              ciphertext := (C.gcmSeal
                  (DeriveKey C Q (GenerateSalt randSalt) params)
                  (GenerateNonce randNonce) P).take P.length,
              tag := (C.gcmSeal
                  (DeriveKey C Q (GenerateSalt randSalt) params)
                  (GenerateNonce randNonce) P).drop P.length }) = params := by
        cases params
        simp_all [decryptParams, mkEncryptedFile]
      unfold Decrypt
      dsimp only [mkEncryptedFile]
      dsimp only [mkEncryptedFile] at hparams
      rw [halgh, if_pos rfl, hparams]
      exact decryptAES_opens C _ Q params P hk
        (by dsimp only [mkEncryptedFile]; rw [List.take_append_drop]; exact hopenA rfl)
  · subst hB
    refine ⟨{ salt := GenerateSalt randSalt, nonce := GenerateNonce randNonce,
              ciphertext := (C.chachaSeal
                  (DeriveKey C Q (GenerateSalt randSalt) params)
                  (GenerateNonce randNonce) P).take P.length,
              tag := (C.chachaSeal
                  (DeriveKey C Q (GenerateSalt randSalt) params)
                  (GenerateNonce randNonce) P).drop P.length }, ?_, ?_⟩
    · unfold Encrypt
      rw [if_neg (by decide), if_pos rfl,
        encryptChaCha20_eq_ok C randSalt randNonce P Q params hk (hsealC rfl)]
    · have hparams : decryptParams
          (mkEncryptedFile hdr
            { salt := GenerateSalt randSalt, nonce := GenerateNonce randNonce,
              ciphertext := (C.chachaSeal
                  (DeriveKey C Q (GenerateSalt randSalt) params)
                  (GenerateNonce randNonce) P).take P.length,
              tag := (C.chachaSeal
                  (DeriveKey C Q (GenerateSalt randSalt) params)
                  (GenerateNonce randNonce) P).drop P.length }) = params := by
        cases params
        simp_all [decryptParams, mkEncryptedFile]
      unfold Decrypt
      dsimp only [mkEncryptedFile]
      dsimp only [mkEncryptedFile] at hparams
      rw [halgh, if_neg (by decide), if_pos rfl, hparams]
      exact decryptChaCha20_opens C _ _ _ _ Q params P hk
        (by rw [List.take_append_drop]; exact hopenC rfl)

/-- C1 witness: a concrete round-trip through the toy primitives, which
satisfy all the library-contract hypotheses at these inputs. -/
theorem encrypt_decrypt_roundtrip_witness :
    ∃ r, (Encrypt toyPrims (fun i => i) (fun i => 2 * i) [10, 20] [1, 2]
        "AES-256-GCM" FastKDFParams).1 = Except.ok r ∧
      (Decrypt toyPrims
        (mkEncryptedFile
          { version := "1.0", algorithm := "AES-256-GCM", kdf := "Argon2id",
            iterations := 1000, memory := 8, threads := 1,
            timestamp := ⟨0⟩, comment := "" } r) [1, 2]).1 =
        Except.ok [10, 20] :=
  encrypt_decrypt_roundtrip toyPrims (fun i => i) (fun i => 2 * i)
    [10, 20] [1, 2] "AES-256-GCM" FastKDFParams
    { version := "1.0", algorithm := "AES-256-GCM", kdf := "Argon2id",
      iterations := 1000, memory := 8, threads := 1,
      timestamp := ⟨0⟩, comment := "" }
    (Or.inl rfl) rfl rfl rfl rfl rfl (by decide)
    (fun _ => by decide) (fun _ => by decide)
    (fun h => absurd h (by decide)) (fun h => absurd h (by decide))

/-- A failing `DecryptAES`: if the AEAD open of the reconstructed blob
fails, the call reports the authentication failure. -/
lemma decryptAES_rejects (C : CryptoPrims) (encFile : EncryptedFile)
    (passphrase : List Nat) (params : KDFParams)
    (hk : (DeriveKey C passphrase encFile.salt params).length = 32)
    (hopen : C.gcmOpen (DeriveKey C passphrase encFile.salt params)
      encFile.nonce (encFile.ciphertext ++ encFile.tag) = none) :
    (DecryptAES C encFile passphrase params).1 =
      Except.error "decryption failed (wrong passphrase?)" := by
  unfold DecryptAES
  dsimp only
  have hcond : aesKeyLenOk
      (DeriveKey C passphrase encFile.salt params).length = true := by
    rw [hk]; rfl
  rw [hcond, if_pos rfl, hopen]

/-- A failing `DecryptChaCha20`, as for AES. -/
lemma decryptChaCha20_rejects (C : CryptoPrims)
    (salt nonce ciphertext tag : List Nat) (passphrase : List Nat)
    (params : KDFParams)
    (hk : (DeriveKey C passphrase salt params).length = 32)
    (hopen : C.chachaOpen (DeriveKey C passphrase salt params)
      nonce (ciphertext ++ tag) = none) :
    (DecryptChaCha20 C salt nonce ciphertext tag passphrase params).1 =
      Except.error "decryption failed (wrong passphrase?)" := by
  unfold DecryptChaCha20
  dsimp only
  have hcond : chachaKeyLenOk
      (DeriveKey C passphrase salt params).length = true := by
    rw [hk]; rfl
  rw [hcond, if_pos rfl, hopen]

/-- C5: wrong-passphrase rejection.  For distinct passphrases `Q1 ≠ Q2`
and either supported algorithm, given the library contracts (key lengths,
seal length, and AEAD authenticity: opening the sealed blob under the key
derived from the other passphrase fails), encrypting under `Q1` succeeds
and decrypting the resulting artifact with `Q2` fails with the
authentication error. -/
theorem wrong_passphrase_rejected (C : CryptoPrims) (randSalt randNonce : Nat → Nat)
    (P Q1 Q2 : List Nat) (alg : String) (params : KDFParams) (hdr : Header)
    (hQ : Q1 ≠ Q2)
    (halg : alg = AlgorithmAESGCM ∨ alg = AlgorithmChaCha20)
    (hKL : params.keyLength = 32)
    (halgh : hdr.algorithm = alg)
    (hith : hdr.iterations = params.iterations)
    (hmemh : hdr.memory = params.memory)
    (hthrh : hdr.threads = params.threads)
    (hk1 : (DeriveKey C Q1 (GenerateSalt randSalt) params).length = 32)
    (hk2 : (DeriveKey C Q2 (GenerateSalt randSalt) params).length = 32)
    (hsealA : alg = AlgorithmAESGCM →
      (C.gcmSeal (DeriveKey C Q1 (GenerateSalt randSalt) params)
        (GenerateNonce randNonce) P).length = P.length + 16)
    (hauthA : alg = AlgorithmAESGCM →
      C.gcmOpen (DeriveKey C Q2 (GenerateSalt randSalt) params)
        (GenerateNonce randNonce)
        (C.gcmSeal (DeriveKey C Q1 (GenerateSalt randSalt) params)
          (GenerateNonce randNonce) P) = none)
    (hsealC : alg = AlgorithmChaCha20 →
      (C.chachaSeal (DeriveKey C Q1 (GenerateSalt randSalt) params)
        (GenerateNonce randNonce) P).length = P.length + 16)
    (hauthC : alg = AlgorithmChaCha20 →
      C.chachaOpen (DeriveKey C Q2 (GenerateSalt randSalt) params)
        (GenerateNonce randNonce)
        (C.chachaSeal (DeriveKey C Q1 (GenerateSalt randSalt) params)
          (GenerateNonce randNonce) P) = none) :
    ∃ r, (Encrypt C randSalt randNonce P Q1 alg params).1 = Except.ok r ∧
      (Decrypt C (mkEncryptedFile hdr r) Q2).1 =
        Except.error "decryption failed (wrong passphrase?)" := by
  rcases halg with hA | hB
  · subst hA
    refine ⟨{ salt := GenerateSalt randSalt, nonce := GenerateNonce randNonce,
              ciphertext := (C.gcmSeal
                  (DeriveKey C Q1 (GenerateSalt randSalt) params)
                  (GenerateNonce randNonce) P).take P.length,
              tag := (C.gcmSeal
                  (DeriveKey C Q1 (GenerateSalt randSalt) params)
                  (GenerateNonce randNonce) P).drop P.length }, ?_, ?_⟩
    · unfold Encrypt
      rw [if_pos rfl, encryptAES_eq_ok C randSalt randNonce P Q1 params hk1 (hsealA rfl)]
    · have hparams : decryptParams
          (mkEncryptedFile hdr
            { salt := GenerateSalt randSalt, nonce := GenerateNonce randNonce,
              ciphertext := (C.gcmSeal
                  (DeriveKey C Q1 (GenerateSalt randSalt) params)
                  (GenerateNonce randNonce) P).take P.length,
              tag := (C.gcmSeal
                  (DeriveKey C Q1 (GenerateSalt randSalt) params)
                  (GenerateNonce randNonce) P).drop P.length }) = params := by
        cases params
        simp_all [decryptParams, mkEncryptedFile]
      unfold Decrypt
      dsimp only [mkEncryptedFile]
      dsimp only [mkEncryptedFile] at hparams
      rw [halgh, if_pos rfl, hparams]
      exact decryptAES_rejects C _ Q2 params hk2
        (by dsimp only [mkEncryptedFile]; rw [List.take_append_drop]; exact hauthA rfl)
  · subst hB
    refine ⟨{ salt := GenerateSalt randSalt, nonce := GenerateNonce randNonce,
              ciphertext := (C.chachaSeal
                  (DeriveKey C Q1 (GenerateSalt randSalt) params)
                  (GenerateNonce randNonce) P).take P.length,
              tag := (C.chachaSeal
                  (DeriveKey C Q1 (GenerateSalt randSalt) params)
                  (GenerateNonce randNonce) P).drop P.length }, ?_, ?_⟩
    · unfold Encrypt
      rw [if_neg (by decide), if_pos rfl,
        encryptChaCha20_eq_ok C randSalt randNonce P Q1 params hk1 (hsealC rfl)]
    · have hparams : decryptParams
          (mkEncryptedFile hdr
            { salt := GenerateSalt randSalt, nonce := GenerateNonce randNonce,
              ciphertext := (C.chachaSeal
                  (DeriveKey C Q1 (GenerateSalt randSalt) params)
                  (GenerateNonce randNonce) P).take P.length,
              tag := (C.chachaSeal
                  (DeriveKey C Q1 (GenerateSalt randSalt) params)
                  (GenerateNonce randNonce) P).drop P.length }) = params := by
        cases params
        simp_all [decryptParams, mkEncryptedFile]
      unfold Decrypt
      dsimp only [mkEncryptedFile]
      dsimp only [mkEncryptedFile] at hparams
      rw [halgh, if_neg (by decide), if_pos rfl, hparams]
      exact decryptChaCha20_rejects C _ _ _ _ Q2 params hk2
        (by rw [List.take_append_drop]; exact hauthC rfl)

/-- C5 witness: with the toy primitives, encrypting under passphrase `[1]`
and decrypting with `[2]` fails with the authentication error (the toy
tag recomputed under the other derived key does not match). -/
theorem wrong_passphrase_rejected_witness :
    ∃ r, (Encrypt toyPrims (fun i => i) (fun i => 2 * i) [10, 20] [1]
        "ChaCha20-Poly1305" FastKDFParams).1 = Except.ok r ∧
      (Decrypt toyPrims
        (mkEncryptedFile
          { version := "1.0", algorithm := "ChaCha20-Poly1305", kdf := "Argon2id",
            iterations := 1000, memory := 8, threads := 1,
            timestamp := ⟨0⟩, comment := "" } r) [2]).1 =
        Except.error "decryption failed (wrong passphrase?)" :=
  wrong_passphrase_rejected toyPrims (fun i => i) (fun i => 2 * i)
    [10, 20] [1] [2] "ChaCha20-Poly1305" FastKDFParams
    { version := "1.0", algorithm := "ChaCha20-Poly1305", kdf := "Argon2id",
      iterations := 1000, memory := 8, threads := 1,
      timestamp := ⟨0⟩, comment := "" }
    (by decide) (Or.inr rfl) rfl rfl rfl rfl rfl (by decide) (by decide)
    (fun h => absurd h (by decide)) (fun h => absurd h (by decide))
    (fun _ => by decide) (fun _ => by decide)

/-- C3: `Decrypt` derives the key only from the artifact's own recorded
salt and recorded cost parameters (header iterations/memory/threads, key
length fixed at 32) — it takes no caller-supplied parameters at all — and
opens the blob rebuilt as ciphertext ‖ tag with the artifact's recorded
nonce (the modelled AEAD open takes no associated data, matching the
`nil` associated data in the source). -/
theorem decrypt_uses_recorded_parameters (C : CryptoPrims)
    (encFile : EncryptedFile) (passphrase : List Nat)
    (hkA : encFile.header.algorithm = AlgorithmAESGCM →
      (DeriveKey C passphrase encFile.salt (decryptParams encFile)).length = 32)
    (hkC : encFile.header.algorithm = AlgorithmChaCha20 →
      (DeriveKey C passphrase encFile.salt (decryptParams encFile)).length = 32) :
    decryptParams encFile =
      { iterations := encFile.header.iterations,
        memory := encFile.header.memory,
        threads := encFile.header.threads, keyLength := 32 } ∧
    (encFile.header.algorithm = AlgorithmAESGCM →
      (Decrypt C encFile passphrase).1 =
        match C.gcmOpen
            (DeriveKey C passphrase encFile.salt (decryptParams encFile))
            encFile.nonce (encFile.ciphertext ++ encFile.tag) with
        | some plaintext => Except.ok plaintext
        | none => Except.error "decryption failed (wrong passphrase?)") ∧
    (encFile.header.algorithm = AlgorithmChaCha20 →
      (Decrypt C encFile passphrase).1 =
        match C.chachaOpen
            (DeriveKey C passphrase encFile.salt (decryptParams encFile))
            encFile.nonce (encFile.ciphertext ++ encFile.tag) with
        | some plaintext => Except.ok plaintext
        | none => Except.error "decryption failed (wrong passphrase?)") := by
  refine ⟨rfl, ?_, ?_⟩
  · intro h
    unfold Decrypt
    rw [h, if_pos rfl]
    unfold DecryptAES
    dsimp only
    have hcond : aesKeyLenOk
        (DeriveKey C passphrase encFile.salt (decryptParams encFile)).length
          = true := by
      rw [hkA h]; rfl
    rw [hcond, if_pos rfl]
    cases C.gcmOpen (DeriveKey C passphrase encFile.salt (decryptParams encFile))
      encFile.nonce (encFile.ciphertext ++ encFile.tag) <;> rfl
  · intro h
    unfold Decrypt
    rw [h, if_neg (by decide), if_pos rfl]
    unfold DecryptChaCha20
    dsimp only
    have hcond : chachaKeyLenOk
        (DeriveKey C passphrase encFile.salt (decryptParams encFile)).length
          = true := by
      rw [hkC h]; rfl
    rw [hcond, if_pos rfl]
    cases C.chachaOpen (DeriveKey C passphrase encFile.salt (decryptParams encFile))
      encFile.nonce (encFile.ciphertext ++ encFile.tag) <;> rfl

/-- C3 witness: on a concrete artifact whose stored tag does not match,
the equation given by the theorem evaluates to the authentication
error. -/
theorem decrypt_uses_recorded_parameters_witness :
    (Decrypt toyPrims
      { header := { version := "1.0", algorithm := "AES-256-GCM",
                    kdf := "Argon2id", iterations := 1, memory := 1,
                    threads := 1, timestamp := ⟨0⟩, comment := "" },
        salt := [1, 2, 3], nonce := [4],
        ciphertext := [7, 8], tag := List.replicate 16 0 } [3]).1 =
      Except.error "decryption failed (wrong passphrase?)" := by
  have h := (decrypt_uses_recorded_parameters toyPrims
    { header := { version := "1.0", algorithm := "AES-256-GCM",
                  kdf := "Argon2id", iterations := 1, memory := 1,
                  threads := 1, timestamp := ⟨0⟩, comment := "" },
      salt := [1, 2, 3], nonce := [4],
      ciphertext := [7, 8], tag := List.replicate 16 0 } [3]
    (fun _ => by decide) (fun hc => absurd hc (by decide))).2.1 rfl
  rw [h]
  rfl

/-! ### Artifact serialization (`pkg/format/format.go`: `ToJSON` /
`FromJSON` over `encoding/json`).

The struct-tag-driven mapping between the Go structs and the JSON object
tree is the repository's contract (field names from the `json:"..."`
tags, `omitempty` on `comment`); it is modelled concretely below.  The
text layer — rendering a JSON tree to bytes and parsing it back,
including base64 for `[]byte` fields and RFC3339 for the timestamp,
which `encoding/json` performs internally — is external library code and
is passed in as a `marshal`/`unmarshal` pair. -/

/-- The JSON tree exchanged with `encoding/json`.  Byte-slice and
timestamp fields stay typed leaves; their text encodings live in the
external marshal layer. -/
inductive Jval where
  | str (s : String)
  | num (n : Nat)
  | bytes (b : List Nat)
  | time (t : GoTime)
  | obj (fields : List (String × Jval))

/-- The `Header` struct marshalled per its json tags; `comment` carries
`omitempty`, so an empty comment produces no field. -/
def encodeHeader (h : Header) : Jval :=
  Jval.obj
    ([("version", Jval.str h.version), ("algorithm", Jval.str h.algorithm),
      ("kdf", Jval.str h.kdf), ("iterations", Jval.num h.iterations),
      ("memory", Jval.num h.memory), ("threads", Jval.num h.threads),
      ("timestamp", Jval.time h.timestamp)] ++
     (if h.comment = "" then [] else [("comment", Jval.str h.comment)]))

/-- `json.Unmarshal` semantics for a string field: an absent field leaves
the Go zero value, a present field must be a string. -/
def lookupStr (fields : List (String × Jval)) (name : String) : Option String :=
  match fields.lookup name with
  | none => some ""
  | some (Jval.str s) => some s
  | some _ => none

/-- `json.Unmarshal` semantics for a numeric field. -/
def lookupNum (fields : List (String × Jval)) (name : String) : Option Nat :=
  match fields.lookup name with
  | none => some 0
  | some (Jval.num n) => some n
  | some _ => none

/-- `json.Unmarshal` semantics for the timestamp field. -/
def lookupTime (fields : List (String × Jval)) (name : String) : Option GoTime :=
  match fields.lookup name with
  | none => some ⟨0⟩
  | some (Jval.time t) => some t
  | some _ => none

/-- `json.Unmarshal` semantics for a `[]byte` field. -/
def lookupBytes (fields : List (String × Jval)) (name : String) : Option (List Nat) :=
  match fields.lookup name with
  | none => some []
  | some (Jval.bytes b) => some b
  | some _ => none

/-- The `Header` struct unmarshalled per its json tags. -/
def decodeHeader : Jval → Option Header
  | Jval.obj fields => do
      let version ← lookupStr fields "version"
      let algorithm ← lookupStr fields "algorithm"
      let kdf ← lookupStr fields "kdf"
      let iterations ← lookupNum fields "iterations"
      let memory ← lookupNum fields "memory"
      let threads ← lookupNum fields "threads"
      let timestamp ← lookupTime fields "timestamp"
      let comment ← lookupStr fields "comment"
      pure { version := version, algorithm := algorithm, kdf := kdf,
             iterations := iterations, memory := memory, threads := threads,
             timestamp := timestamp, comment := comment }
  | _ => none

/-- The `EncryptedFile` struct marshalled per its json tags. -/
def encodeEncryptedFile (ef : EncryptedFile) : Jval :=
  Jval.obj
    [("header", encodeHeader ef.header), ("salt", Jval.bytes ef.salt),
     ("nonce", Jval.bytes ef.nonce), ("ciphertext", Jval.bytes ef.ciphertext),
     ("tag", Jval.bytes ef.tag)]

/-- The `EncryptedFile` struct unmarshalled per its json tags (an absent
header leaves the zero-value `Header`). -/
def decodeEncryptedFile : Jval → Option EncryptedFile
  | Jval.obj fields => do
      let header ← match fields.lookup "header" with
        | none => some { version := "", algorithm := "", kdf := "",
                         iterations := 0, memory := 0, threads := 0,
                         timestamp := ⟨0⟩, comment := "" }
        | some j => decodeHeader j
      let salt ← lookupBytes fields "salt"
      let nonce ← lookupBytes fields "nonce"
      let ciphertext ← lookupBytes fields "ciphertext"
      let tag ← lookupBytes fields "tag"
      pure { header := header, salt := salt, nonce := nonce,
             ciphertext := ciphertext, tag := tag }
  | _ => none

/-- `(*EncryptedFile).ToJSON` from `pkg/format/format.go`:
`json.MarshalIndent(ef, "", "  ")`, i.e. the tag-driven object tree
rendered by the external text layer (marshalling this struct cannot
fail). -/
def ToJSON (marshal : Jval → List Nat) (ef : EncryptedFile) : List Nat :=
  marshal (encodeEncryptedFile ef)

/-- `format.FromJSON` from `pkg/format/format.go`: `json.Unmarshal` into
a fresh `EncryptedFile`; a parse or type error is returned as an error. -/
def FromJSON (unmarshal : List Nat → Option Jval) (data : List Nat) :
    Except String EncryptedFile :=
  match unmarshal data with
  | none => Except.error "invalid JSON"
  | some j =>
    match decodeEncryptedFile j with
    | none => Except.error "invalid JSON"
    | some ef => Except.ok ef

/-- Decoding inverts encoding on headers (including the `omitempty`
comment field). -/
lemma decodeHeader_encodeHeader (h : Header) :
    decodeHeader (encodeHeader h) = some h := by
  obtain ⟨v, a, k, i, m, t, ts, c⟩ := h
  by_cases hc : c = "" <;>
    simp [encodeHeader, decodeHeader, lookupStr, lookupNum, lookupTime,
      List.lookup, hc]

/-- Decoding inverts encoding on whole artifacts. -/
lemma decodeEncryptedFile_encodeEncryptedFile (ef : EncryptedFile) :
    decodeEncryptedFile (encodeEncryptedFile ef) = some ef := by
  simp [encodeEncryptedFile, decodeEncryptedFile, lookupBytes, List.lookup,
    decodeHeader_encodeHeader]

/-- C10: serialization round-trip.  For every in-memory artifact, given
that the external JSON text layer parses back the tree it printed,
`FromJSON` of `ToJSON` succeeds and returns an artifact equal to the
original in every field (header version, algorithm, KDF, iterations,
memory, threads, timestamp, comment, salt, nonce, ciphertext, tag —
record equality). -/
theorem tojson_fromjson_roundtrip (marshal : Jval → List Nat)
    (unmarshal : List Nat → Option Jval) (ef : EncryptedFile)
    (hlib : unmarshal (marshal (encodeEncryptedFile ef)) =
      some (encodeEncryptedFile ef)) :
    FromJSON unmarshal (ToJSON marshal ef) = Except.ok ef := by
  unfold ToJSON FromJSON
  rw [hlib]
  simp [decodeEncryptedFile_encodeEncryptedFile]

/-- C10 witness: a concrete artifact round-trips through a text layer
that returns the printed tree. -/
theorem tojson_fromjson_roundtrip_witness :
    FromJSON
      (fun _ => some (encodeEncryptedFile
        { header := { version := "1.0", algorithm := "AES-256-GCM",
                      kdf := "Argon2id", iterations := 1000, memory := 8,
                      threads := 1, timestamp := ⟨77⟩, comment := "backup" },
          salt := [1, 2], nonce := [3], ciphertext := [4, 5, 6], tag := [7] }))
      (ToJSON (fun _ => [0])
        { header := { version := "1.0", algorithm := "AES-256-GCM",
                      kdf := "Argon2id", iterations := 1000, memory := 8,
                      threads := 1, timestamp := ⟨77⟩, comment := "backup" },
          salt := [1, 2], nonce := [3], ciphertext := [4, 5, 6], tag := [7] }) =
      Except.ok
        { header := { version := "1.0", algorithm := "AES-256-GCM",
                      kdf := "Argon2id", iterations := 1000, memory := 8,
                      threads := 1, timestamp := ⟨77⟩, comment := "backup" },
          salt := [1, 2], nonce := [3], ciphertext := [4, 5, 6], tag := [7] } :=
  tojson_fromjson_roundtrip (fun _ => [0])
    (fun _ => some (encodeEncryptedFile
      { header := { version := "1.0", algorithm := "AES-256-GCM",
                    kdf := "Argon2id", iterations := 1000, memory := 8,
                    threads := 1, timestamp := ⟨77⟩, comment := "backup" },
        salt := [1, 2], nonce := [3], ciphertext := [4, 5, 6], tag := [7] }))
    { header := { version := "1.0", algorithm := "AES-256-GCM",
                  kdf := "Argon2id", iterations := 1000, memory := 8,
                  threads := 1, timestamp := ⟨77⟩, comment := "backup" },
      salt := [1, 2], nonce := [3], ciphertext := [4, 5, 6], tag := [7] }
    rfl
